import Mathlib

/-!
# Verification of the wireless-sensor decoding pipeline

Shallow embedding of `wireless_sensor.py`: the byte-level framing state
machine (`PacketProcessor`), the packet decoder (`parse_packet`), and the
RTD resistance-to-temperature calibration lookup
(`get_temperature_from_resistance`).  Python floats are modelled as exact
rationals (all arithmetic in the source stays within ranges where IEEE
doubles behave exactly like the corresponding rationals for the compared
boundaries); byte values are natural numbers.
-/

/- Batteries marks the arithmetic on `Rat` `@[irreducible]`; restore
default reducibility inside this file so that concrete runs of the embedded
code can be evaluated by `decide`. -/
attribute [local semireducible] Rat.add Rat.sub Rat.mul Rat.inv

deriving instance DecidableEq for Except

set_option maxRecDepth 1000000

namespace WirelessSensor

/-! ## Framing state machine (`PacketProcessor`) -/

/-- Decoder state: the `escape` flag and the in-progress byte buffer
(`self.escape`, `self.packet` in the source). -/
structure PacketProcessor where
  escape : Bool
  packet : List Nat
deriving DecidableEq, Repr

/-- `PACKET_LENGTH = 18` -/
def PACKET_LENGTH : Nat := 18

/-- `ESCAPE_BYTE = b"\b"` (0x08) -/
def ESCAPE_BYTE : Nat := 8

/-- `FRAME_END = b"\n"` (0x0A) -/
def FRAME_END : Nat := 10

/-- `FRAME_START = b"\r"` (0x0D) -/
def FRAME_START : Nat := 13

/-- Fresh decoder as built by `PacketProcessor.__init__`. -/
def PacketProcessor.init : PacketProcessor := ⟨false, []⟩

/-- `PacketProcessor.process_byte`: the input `data : bytes` is modelled as a
list of byte values; a complete packet is returned together with the updated
state (the Python method mutates `self`). -/
def process_byte (st : PacketProcessor) (data : List Nat) :
    PacketProcessor × Option (List Nat) :=
  match data with
  | [byte_val] =>
    if st.escape = false then
      if byte_val = ESCAPE_BYTE then ({ st with escape := true }, none)
      else if byte_val = FRAME_START then ({ st with packet := [] }, none)
      else if byte_val = FRAME_END then
        if st.packet.length = PACKET_LENGTH then
          ({ st with packet := [] }, some st.packet)
        else
          ({ st with packet := [] }, none)
      else
        ({ st with packet := st.packet ++ [byte_val] }, none)
    else
      ({ escape := false, packet := st.packet ++ [byte_val] }, none)
  | _ => (st, none)

/-- Feed a whole byte stream one byte at a time, collecting every emitted
packet in order (the read loop of the host application). -/
def processStream (st : PacketProcessor) : List Nat → PacketProcessor × List (List Nat)
  | [] => (st, [])
  | b :: rest =>
    let step := process_byte st [b]
    let next := processStream step.1 rest
    (next.1, (match step.2 with | some p => [p] | none => []) ++ next.2)

/-! ## Calibration table (`RTDTemperatureTable`) -/

/-- The `rtd_values` table of `RTDTemperatureTable`, with each decimal
literal scaled by 10^4 to an integer (every entry in the source has exactly
four decimal places). -/
def rtd_scaled : List Nat := [
  184932, 189258, 193580, 197899, 202215, 206526, 210834, 215139, 219439, 223737,
  228031, 232321, 236608, 240891, 245171, 249447, 253720, 257990, 262257, 266520,
  270779, 275036, 279289, 283539, 287786, 292029, 296270, 300507, 304741, 308972,
  313200, 317425, 321646, 325865, 330081, 334294, 338503, 342710, 346914, 351115,
  355313, 359508, 363700, 367889, 372076, 376260, 380440, 384619, 388794, 392967,
  397137, 401304, 405469, 409631, 413790, 417946, 422101, 426252, 430401, 434547,
  438691, 442832, 446971, 451107, 455241, 459372, 463501, 467628, 471752, 475873,
  479993, 484109, 488224, 492336, 496446, 500554, 504659, 508762, 512863, 516962,
  521058, 525152, 529244, 533334, 537422, 541507, 545591, 549672, 553751, 557828,
  561903, 565976, 570047, 574115, 578182, 582247, 586310, 590371, 594429, 598486,
  602541, 606594, 610645, 614695, 618742, 622787, 626831, 630873, 634912, 638950,
  642987, 647021, 651054, 655084, 659114, 663141, 667166, 671190, 675212, 679233,
  683251, 687268, 691284, 695297, 699309, 703319, 707328, 711335, 715340, 719344,
  723346, 727347, 731346, 735343, 739339, 743334, 747326, 751318, 755307, 759296,
  763282, 767268, 771251, 775234, 779214, 783194, 787171, 791148, 795123, 799096,
  803068, 807039, 811008, 814976, 818943, 822908, 826871, 830834, 834795, 838754,
  842713, 846669, 850625, 854579, 858532, 862484, 866434, 870383, 874331, 878277,
  882222, 886166, 890109, 894050, 897990, 901929, 905866, 909802, 913737, 917671,
  921603, 925535, 929465, 933394, 937321, 941247, 945173, 949097, 953019, 956941,
  960861, 964780, 968698, 972615, 976531, 980445, 984359, 988271, 992182, 996091,
  1000000, 1003907, 1007814, 1011719, 1015623, 1019526, 1023427, 1027328, 1031227, 1035125,
  1039022, 1042918, 1046813, 1050706, 1054599, 1058490, 1062380, 1066269, 1070156, 1074043,
  1077928, 1081813, 1085696, 1089578, 1093458, 1097338, 1101216, 1105094, 1108970, 1112845,
  1116718, 1120591, 1124463, 1128333, 1132202, 1136070, 1139937, 1143802, 1147667, 1151530,
  1155392, 1159254, 1163113, 1166972, 1170830, 1174686, 1178541, 1182395, 1186248, 1190100,
  1193951, 1197800, 1201648, 1205495, 1209341, 1213186, 1217030, 1220872, 1224713, 1228554,
  1232392, 1236230, 1240067, 1243902, 1247737, 1251570, 1255402, 1259233, 1263063, 1266891,
  1270718, 1274545, 1278370, 1282194, 1286016, 1289838, 1293658, 1297478, 1301296, 1305113,
  1308928, 1312743, 1316556, 1320369, 1324180, 1327990, 1331799, 1335606, 1339413, 1343218,
  1347022, 1350825, 1354627, 1358428, 1362227, 1366026, 1369823, 1373619, 1377414, 1381207,
  1385000, 1388791, 1392582, 1396371, 1400159, 1403945, 1407731, 1411515, 1415299, 1419081,
  1422862, 1426642, 1430420, 1434198, 1437974, 1441749, 1445523, 1449296, 1453068, 1456838,
  1460608, 1464376, 1468143, 1471909, 1475673, 1479437, 1483199, 1486960, 1490721, 1494479,
  1498237, 1501994, 1505749, 1509504, 1513257, 1517009, 1520759, 1524509, 1528257, 1532005,
  1535751, 1539496, 1543240, 1546982, 1550724, 1554464, 1558203, 1561941, 1565678, 1569414,
  1573149, 1576882, 1580614, 1584345, 1588075, 1591804, 1595531, 1599258, 1602983, 1606707,
  1610430, 1614152, 1617872, 1621592, 1625310, 1629027, 1632743, 1636458, 1640172, 1643884,
  1647596, 1651306, 1655015, 1658723, 1662429, 1666135, 1669839, 1673542, 1677245, 1680945,
  1684645, 1688344, 1692041, 1695737, 1699432, 1703126, 1706819, 1710511, 1714201, 1717890,
  1721579, 1725266, 1728951, 1732636, 1736319, 1740002, 1743683, 1747363, 1751042, 1754719,
  1751042, 1754719, 1758396, 1762071, 1765746, 1769419, 1773090, 1776761, 1780431, 1784099,
  1787766, 1791432, 1795097, 1798761, 1802424, 1806085, 1809745, 1813405, 1817063, 1820719,
  1824375, 1828029, 1831683, 1835335, 1838986, 1842636, 1846284, 1849932, 1853578, 1857223,
  1860867, 1864510, 1868152, 1871793, 1875432, 1879070, 1882707, 1886343, 1889978, 1893611,
  1897244, 1900875, 1904505, 1908134, 1911762, 1915389, 1919014, 1922638, 1926262, 1929884,
  1933504, 1937124, 1973257, 1969649, 1966040, 1962429, 1958818, 1955205, 1951591, 1947976,
  1944360, 1940743, 1973257, 1969649, 1966040, 1962429, 1958818, 1955205, 1951591, 1947976,
  1944360, 1940743, 1940743, 1944360, 1947976, 1951591, 1955205, 1958818, 1962429, 1966040,
  1969649, 1973257, 1976864, 1980469, 1984074, 1987677, 1991280, 1994881, 1998481, 2002079,
  2005677, 2009274, 2012869, 2016463, 2020056, 2023648, 2027238, 2030828, 2034416, 2038003,
  2041589, 2045174, 2048758, 2052340, 2055922, 2059502, 2063081, 2066659, 2070236, 2073811,
  2077386, 2080959, 2084531, 2088102, 2091672, 2095240, 2098808, 2102374, 2105939, 2109503,
  2113066, 2116628, 2120188, 2123747, 2127305, 2130862, 2134418, 2137973, 2141527, 2145079,
  2148630, 2152180, 2155729, 2159277, 2162823, 2166369, 2169913, 2173456, 2176998, 2180539,
  2184078, 2187617, 2191154, 2194690, 2198225, 2201759, 2205291, 2208823, 2212353, 2215882,
  2219410, 2222937, 2226463, 2229987, 2233511, 2237033, 2240554, 2244074, 2247592, 2251110,
  2254626, 2258142, 2261656, 2265169, 2268680, 2272191, 2275700, 2279209, 2282716, 2286222,
  2289726, 2293230, 2296733, 2296733, 2303734, 2307233, 2310731, 2314227, 2317723, 2321217,
  2324710, 2328202, 2331693, 2335183, 2338672, 2342159, 2345645, 2349130, 2352614, 2356097,
  2359578, 2363059, 2366538, 2370016, 2373493, 2376969, 2380443, 2383917, 2387389, 2390860,
  2394330, 2397799, 2401267, 2404733, 2408199, 2411663, 2415126, 2418588, 2422048, 2425508,
  2428966, 2432423, 2435879, 2439334, 2442788, 2446241, 2449692, 2453142, 2456591, 2460039,
  2463486, 2466932, 2470376, 2473819, 2477261, 2480702, 2484142, 2487581, 2491018, 2494455,
  2497890, 2501324, 2504757, 2508188, 2511619, 2515048, 2518476, 2521903, 2525329, 2528754,
  2532177, 2535600, 2539021, 2542441, 2545860, 2549278, 2552694, 2556110, 2559524, 2562937,
  2566349, 2569760, 2573170, 2576578, 2579985, 2583392, 2586797, 2590200, 2593603, 2597005,
  2600405, 2603804, 2607202, 2610599, 2613995, 2617389, 2620783, 2624175, 2627566, 2630956,
  2634344, 2637732, 2641119, 2644504, 2647888, 2651271, 2654653, 2658033, 2661413, 2664791,
  2668168, 2671544, 2674919, 2678293, 2681665, 2685036, 2688407, 2691776, 2695143, 2698510,
  2701876, 2705240, 2708603, 2711965, 2715326, 2718686, 2722044, 2725402, 2728758, 2732113,
  2735467, 2738820, 2742172, 2745522, 2748871, 2752219, 2755566, 2758912, 2762257, 2765600,
  2768943, 2772284, 2775624, 2778963, 2782300, 2785637, 2788972, 2792306, 2795639, 2798971,
  2802302, 2805632, 2808960, 2812287, 2815613, 2818938, 2822262, 2825585, 2828906, 2832226,
  2835545, 2838863, 2842180, 2845496, 2848810, 2852124, 2855436, 2858747, 2862057, 2865365,
  2868673, 2871979, 2875284, 2878588, 2881891, 2885193, 2888493, 2891793, 2895091, 2898388,
  2901684, 2904979, 2937862, 2934579, 2931295, 2928010, 2924723, 2921435, 2918146, 2914856,
  2911565, 2908272, 2908272, 2911565, 2914856, 2918146, 2921435, 2924723, 2928010, 2931295,
  2934579, 2937862, 2941144, 2944425, 2947705, 2950983, 2954261, 2957537, 2960812, 2964086,
  2967359, 2970630, 2973901, 2977170, 2980438, 2983705, 2986970, 2990235, 2993498, 2996761,
  3000022, 3003282, 3006540, 3009798, 3013055, 3016310, 3019564, 3022817, 3026069, 3029319,
  3032569, 3035817, 3039064, 3042310, 3045555, 3048799, 3052042, 3055283, 3058523, 3061762,
  3065000, 3068237, 3071472, 3074707, 3077940, 3081172, 3084403, 3087633, 3090861, 3094089,
  3097315, 3100540, 3103764, 3106987, 3110209, 3113429, 3116648, 3119867, 3123084, 3126299,
  3129514, 3132728, 3135940, 3139151, 3142361, 3145570, 3148778, 3151984, 3155190, 3158394,
  3161597, 3164799, 3168000, 3171199, 3174398, 3177595, 3180791, 3183986, 3187180, 3190373,
  3193564, 3196754, 3199944, 3203132, 3206318, 3209504, 3212689, 3215872, 3219054, 3222235,
  3225415, 3228594, 3231771, 3234948, 3238123, 3241297, 3244470, 3247642, 3250812, 3253982,
  3257150, 3260317, 3263483, 3266648, 3269811, 3272974, 3276135, 3279295, 3282454, 3285612,
  3288769, 3291924, 3295079, 3298232, 3301384, 3304535, 3307684, 3310833, 3313980, 3317126,
  3320271, 3323415, 3326558, 3329700, 3332840, 3335979, 3339117, 3342254, 3345390, 3348525,
  3351658, 3354790, 3357922, 3361052, 3364180, 3367308, 3370435, 3373560, 3376684, 3379807,
  3382929, 3386050, 3389169, 3392287, 3395405, 3398521, 3401636, 3404749, 3407862, 3410973,
  3414084, 3417193, 3420301, 3423407, 3426513, 3429617, 3432721, 3435823, 3438924, 3442024,
  3445122, 3448220, 3451316, 3454411, 3457505, 3460598, 3463690, 3466780, 3469870, 3472958,
  3476045, 3479131, 3482215, 3485299, 3488381, 3491463, 3494543, 3497622, 3500699, 3503776,
  3506851, 3509926, 3540605, 3537542, 3534478, 3531413, 3528347, 3525280, 3522211, 3519141,
  3516071, 3512999, 3512999, 3516071, 3519141, 3522211, 3525280, 3528347, 3531413, 3534478,
  3537542, 3540605, 3543666, 3546726, 3549786, 3552844, 3555900, 3558956, 3562011, 3565064,
  3568116, 3571167, 3574217, 3577266, 3580314, 3583360, 3586405, 3589449, 3592492, 3595534,
  3598575, 3601614, 3634972, 3637997, 3641022, 3644045, 3647067, 3650088, 3653107, 3656126,
  3659143, 3662160, 3665175, 3668189, 3671202, 3674213, 3677224, 3680233, 3683241, 3686248,
  3689254, 3692258, 3695262, 3698264, 3701265, 3704265, 3707264, 3710262, 3713258, 3716254,
  3719248, 3722241, 3725233, 3728224, 3731213, 3734202, 3737189, 3740175, 3743160, 3746144,
  3749126, 3752108, 3755088, 3758067, 3761045, 3764022, 3766998, 3769972, 3772945, 3775917,
  3778888, 3781858, 3784827, 3787794, 3790761, 3793726, 3796690, 3799653, 3802615, 3805575,
  3808535, 3811493, 3814450, 3817406, 3820361, 3823314, 3826267, 3829218, 3832168, 3835117,
  3838065, 3841011, 3843957, 3846901, 3849844, 3852786, 3855727, 3858667, 3861605, 3864543,
  3867479, 3870414, 3873348, 3876280, 3879212, 3882142, 3885072, 3888000, 3890926, 3893852,
  3896777, 3899700, 3902623]

/-- The `rtd_values` table as exact rationals. -/
def rtd_values : List ℚ := rtd_scaled.map (fun n => (n : ℚ) / 10000)

/-- Python's built-in `abs` on a (rational-modelled) float. -/
def pyabs (q : ℚ) : ℚ := if q < 0 then -q else q

/-- Accumulator loop of Python's `min(range(len(t)), key=...)`: scan the
remaining entries `ts` starting at index `i`, keeping the current best index
`best` with key value `bestVal`; the best index is replaced only on a strict
decrease, so ties keep the earliest index. -/
def minIdxAux (r : ℚ) : List ℚ → Nat → Nat → ℚ → Nat
  | [], _, best, _ => best
  | t :: rest, i, best, bestVal =>
    if pyabs (t - r) < bestVal then minIdxAux r rest (i + 1) i (pyabs (t - r))
    else minIdxAux r rest (i + 1) best bestVal

/-- `min(range(len(t)), key=lambda i: abs(t[i] - r))` for nonempty `t`. -/
def argminIdx (r : ℚ) : List ℚ → Nat
  | [] => 0
  | t :: rest => minIdxAux r rest 1 0 (pyabs (t - r))

/-- Failure modes of `RTDTemperatureTable.get_temperature_from_resistance`
(each raised as a `ValueError` in the source). -/
inductive LookupError
  | negativeInput
  | emptyTable
deriving DecidableEq, Repr

/-- `RTDTemperatureTable.get_temperature_from_resistance`: nearest-neighbor
search over `rtd_values`, returning `index - 200`. -/
def get_temperature_from_resistance (r : ℚ) : Except LookupError Int :=
  if r < 0 then .error .negativeInput
  else if rtd_values = [] then .error .emptyTable
  else .ok ((argminIdx r rtd_values : Int) - 200)

/-! ## Packet parsing (`SensorDataParser.parse_packet`) -/

/-- `SensorData` record. -/
structure SensorData where
  temperature : ℚ
  device_id : String
  rtd_resistance : ℚ
  rtd_temperature : Int
  thermocouple : ℚ
  battery_voltage : ℚ
  raw_packet : List Nat
deriving DecidableEq, Repr

/-- `SensorData.is_valid` (the `isinstance` checks of the source are
vacuous here because the embedding is typed). -/
def SensorData.is_valid (d : SensorData) : Bool :=
  if d.battery_voltage < 0 ∨ d.battery_voltage > 10 then false
  else if d.raw_packet.length ≠ 18 then false
  else true

/-- Little-endian 16-bit assembly `(hi << 8) | lo` from the source. -/
def le16 (lo hi : Nat) : Nat := (hi <<< 8) ||| lo

/-- Raw temperature field: `packet[4..1]` assembled by the shift/or chain of
the source. -/
def temp_raw_of (p : List Nat) : Nat :=
  ((((((p.getD 4 0) <<< 8) ||| p.getD 3 0) <<< 8) ||| p.getD 2 0) <<< 8) ||| p.getD 1 0

/-- `temp / 10000.0` -/
def temperature_of (p : List Nat) : ℚ := (temp_raw_of p : ℚ) / 10000

/-- `f"{packet[7]} {packet[8]} {packet[9]} {packet[10]}"` -/
def device_id_of (p : List Nat) : String :=
  toString (p.getD 7 0) ++ " " ++ toString (p.getD 8 0) ++ " " ++
    toString (p.getD 9 0) ++ " " ++ toString (p.getD 10 0)

/-- `rtd_resistance = (rtd * 400) / (2**15)` with `rtd` from bytes 11-12. -/
def rtd_resistance_of (p : List Nat) : ℚ :=
  ((le16 (p.getD 11 0) (p.getD 12 0) : ℚ) * 400) / 2 ^ 15

/-- Thermocouple field from bytes 13-14 (used as-is). -/
def thermocouple_of (p : List Nat) : ℚ := (le16 (p.getD 13 0) (p.getD 14 0) : ℚ)

/-- `battery_voltage = ((packet[16] << 8) | packet[15]) / 1000.0` -/
def battery_voltage_of (p : List Nat) : ℚ :=
  (le16 (p.getD 15 0) (p.getD 16 0) : ℚ) / 1000

/-- `ValueError` causes distinguished by `parse_packet`. -/
inductive ParseError
  | invalidPacketLength
  | negativeResistance
  | invalidSensorData
deriving DecidableEq, Repr

/-- RTD conversion with the source's fallback: a failed calibration lookup
is downgraded to temperature 0 instead of aborting the parse. -/
def rtd_temperature_of (p : List Nat) : Int :=
  match get_temperature_from_resistance (rtd_resistance_of p) with
  | .ok t => t
  | .error _ => 0

/-- The `SensorData(...)` record built by `parse_packet`. -/
def mkSensorData (p : List Nat) : SensorData :=
  { temperature := temperature_of p
    device_id := device_id_of p
    rtd_resistance := rtd_resistance_of p
    rtd_temperature := rtd_temperature_of p
    thermocouple := thermocouple_of p
    battery_voltage := battery_voltage_of p
    raw_packet := p }

/-- `SensorDataParser.parse_packet`. -/
def parse_packet (packet : List Nat) : Except ParseError SensorData :=
  if packet.length ≠ 18 then .error .invalidPacketLength
  else if rtd_resistance_of packet < 0 then .error .negativeResistance
  else
    let sensor_data := mkSensorData packet
    if sensor_data.is_valid = false then .error .invalidSensorData
    else .ok sensor_data

/-! ## Decoder theorems -/

/-- C2: with the escape flag clear, the frame-end byte 0x0A emits the
accumulated buffer exactly when it holds 18 bytes, emits nothing otherwise,
and clears the buffer in both cases. -/
theorem frame_end_rule (st : PacketProcessor) (h : st.escape = false) :
    (process_byte st [FRAME_END]).2
        = (if st.packet.length = 18 then some st.packet else none)
    ∧ (process_byte st [FRAME_END]).1 = { st with packet := [] } := by
  simp only [process_byte, h, ESCAPE_BYTE, FRAME_START, FRAME_END, PACKET_LENGTH]
  norm_num
  split_ifs <;> simp

/-- Witness for C2 at a concrete 18-byte buffer. -/
theorem frame_end_rule_witness :
    (process_byte ⟨false, List.replicate 18 2⟩ [FRAME_END]).2
        = (if (List.replicate 18 (2 : Nat)).length = 18
            then some (List.replicate 18 2) else none)
    ∧ (process_byte ⟨false, List.replicate 18 2⟩ [FRAME_END]).1
        = (⟨false, []⟩ : PacketProcessor) :=
  frame_end_rule ⟨false, List.replicate 18 2⟩ rfl

/-- C3: with the escape flag clear, 0x08 only sets the escape flag; with the
escape flag set, any byte — control codes included — is appended literally
and the flag is cleared; nothing is emitted in either case. -/
theorem escape_semantics :
    (∀ st : PacketProcessor, st.escape = false →
        process_byte st [ESCAPE_BYTE] = ({ st with escape := true }, none))
    ∧ ∀ (st : PacketProcessor) (b : Nat), st.escape = true →
        process_byte st [b] = (⟨false, st.packet ++ [b]⟩, none) := by
  constructor
  · intro st h
    simp [process_byte, h, ESCAPE_BYTE]
  · intro st b h
    simp [process_byte, h]

/-- Witness for C3: the escape byte arms the flag, then a raw 0x0D is taken
as data. -/
theorem escape_semantics_witness :
    process_byte ⟨false, [1]⟩ [ESCAPE_BYTE] = (⟨true, [1]⟩, none)
    ∧ process_byte ⟨true, [1]⟩ [FRAME_START] = (⟨false, [1, 13]⟩, none) :=
  ⟨escape_semantics.1 ⟨false, [1]⟩ rfl, escape_semantics.2 ⟨true, [1]⟩ FRAME_START rfl⟩

/-- C4 counterexample: in the escaped state, 0x0D does NOT clear the buffer —
it is appended literally, so the claim's "for every decoder state" fails. -/
theorem frame_start_escaped_counterexample :
    (process_byte ⟨true, [1]⟩ [FRAME_START]).1.packet ≠ [] := by decide

/-- C4 (amended): with the escape flag clear, the frame-start byte 0x0D
clears the in-progress buffer and emits nothing; with the flag set it is
instead appended literally as data. -/
theorem frame_start_resets (st : PacketProcessor) (h : st.escape = false) :
    process_byte st [FRAME_START] = ({ st with packet := [] }, none) := by
  simp [process_byte, h, ESCAPE_BYTE, FRAME_START]

/-- Witness for the amended C4 at a nonempty buffer. -/
theorem frame_start_resets_witness :
    process_byte ⟨false, [5, 6]⟩ [FRAME_START] = (⟨false, []⟩, none) :=
  frame_start_resets ⟨false, [5, 6]⟩ rfl

/-- C9: a zero-length or multi-byte input yields no packet and leaves the
decoder state exactly unchanged. -/
theorem invalid_input_noop (st : PacketProcessor) (data : List Nat)
    (h : data.length ≠ 1) : process_byte st data = (st, none) := by
  match data with
  | [] => rfl
  | _ :: _ :: _ => rfl
  | [_] => exact absurd rfl h

/-- Witness for C9 on the empty input and on a two-byte input. -/
theorem invalid_input_noop_witness :
    process_byte ⟨true, [7]⟩ [] = (⟨true, [7]⟩, none)
    ∧ process_byte ⟨true, [7]⟩ [1, 2] = (⟨true, [7]⟩, none) :=
  ⟨invalid_input_noop ⟨true, [7]⟩ [] (by decide),
   invalid_input_noop ⟨true, [7]⟩ [1, 2] (by decide)⟩

/-- One step grows the buffer by at most one element. -/
theorem process_byte_buffer_growth (st : PacketProcessor) (b : Nat) :
    ((process_byte st [b]).1).packet.length ≤ st.packet.length + 1 := by
  simp only [process_byte]
  split_ifs <;> simp

/-- C5 counterexample: 19 data bytes with no frame boundary grow the buffer
past 18 elements, so the claimed 0..18 bound on reachable states fails. -/
theorem buffer_bound_counterexample :
    18 < ((processStream PacketProcessor.init (List.replicate 19 1)).1).packet.length := by
  decide

/-- Buffer growth bound for a whole stream, from any starting state. -/
theorem processStream_buffer_growth (s : List Nat) :
    ∀ st : PacketProcessor,
      ((processStream st s).1).packet.length ≤ st.packet.length + s.length := by
  induction s with
  | nil => intro st; simp [processStream]
  | cons b rest ih =>
    intro st
    simp only [processStream]
    calc ((processStream (process_byte st [b]).1 rest).1).packet.length
        ≤ ((process_byte st [b]).1).packet.length + rest.length := ih _
      _ ≤ st.packet.length + 1 + rest.length :=
          Nat.add_le_add_right (process_byte_buffer_growth st b) _
      _ = st.packet.length + (b :: rest).length := by simp; omega

/-- C5 (amended): in every decoder state reachable from the initial state,
the buffer holds at least 0 and at most as many elements as the number of
bytes processed; no fixed 18-element bound holds mid-frame. -/
theorem buffer_length_le_input_length (s : List Nat) :
    ((processStream PacketProcessor.init s).1).packet.length ≤ s.length := by
  simpa [PacketProcessor.init] using processStream_buffer_growth s PacketProcessor.init

/-- A packet is emitted only from the frame-end branch: it is the previous
buffer, its length is 18, and the post-state has an empty buffer and a clear
escape flag. -/
theorem process_byte_emit (st : PacketProcessor) (data : List Nat)
    (st' : PacketProcessor) (p : List Nat)
    (h : process_byte st data = (st', some p)) :
    p = st.packet ∧ p.length = 18 ∧ st'.packet = [] ∧ st'.escape = false := by
  match data with
  | [] => simp [process_byte] at h
  | _ :: _ :: _ => simp [process_byte] at h
  | [b] =>
    by_cases he : st.escape = false
    · simp only [process_byte, he, if_true] at h
      split_ifs at h with h1 h2 h3 h4
      · simp at h
      · simp at h
      · rw [Prod.mk.injEq] at h
        obtain ⟨hst, hp⟩ := h
        cases Option.some.inj hp
        cases hst
        exact ⟨rfl, h4, rfl, rfl⟩
      · simp at h
      · simp at h
    · simp [process_byte, he] at h

/-- Every element of the buffer, and of every emitted packet, after one step
came from the old buffer or from the processed byte. -/
theorem process_byte_mem (st : PacketProcessor) (b : Nat) :
    (∀ x ∈ (process_byte st [b]).1.packet, x ∈ st.packet ∨ x = b)
    ∧ ∀ p, (process_byte st [b]).2 = some p → ∀ x ∈ p, x ∈ st.packet := by
  by_cases he : st.escape = false <;>
    · simp only [process_byte, he]
      split_ifs <;> simp_all

/-- Stream invariant: buffer elements and emitted-packet elements all come
from the starting buffer or from the input stream. -/
theorem processStream_mem (s : List Nat) :
    ∀ st : PacketProcessor,
      (∀ x ∈ (processStream st s).1.packet, x ∈ st.packet ∨ x ∈ s)
      ∧ ∀ p ∈ (processStream st s).2, ∀ x ∈ p, x ∈ st.packet ∨ x ∈ s := by
  induction s with
  | nil => intro st; simp [processStream]
  | cons b rest ih =>
    intro st
    simp only [processStream, List.mem_cons]
    constructor
    · intro x hx
      rcases (ih (process_byte st [b]).1).1 x hx with h | h
      · rcases (process_byte_mem st b).1 x h with h' | h' <;> tauto
      · tauto
    · intro p hp x hx
      rcases List.mem_append.1 hp with h | h
      · match ho : (process_byte st [b]).2 with
        | none => rw [ho] at h; simp at h
        | some q =>
          rw [ho] at h; simp at h
          exact Or.inl ((process_byte_mem st b).2 q ho x (h ▸ hx))
      · rcases (ih (process_byte st [b]).1).2 p h x hx with h' | h'
        · rcases (process_byte_mem st b).1 x h' with h'' | h'' <;> tauto
        · tauto

/-- Every packet a stream emits has length 18. -/
theorem processStream_emitted_length (s : List Nat) :
    ∀ st : PacketProcessor, ∀ p ∈ (processStream st s).2, p.length = 18 := by
  induction s with
  | nil => intro st p hp; simp [processStream] at hp
  | cons b rest ih =>
    intro st p hp
    simp only [processStream] at hp
    rcases List.mem_append.1 hp with h | h
    · match ho : (process_byte st [b]).2 with
      | none => rw [ho] at h; simp at h
      | some q =>
        rw [ho] at h; simp at h
        have hq := process_byte_emit st [b] (process_byte st [b]).1 q
          (by rw [← ho])
        rw [h]
        exact hq.2.1
    · exact ih _ p h

/-- C10: whenever `process_byte` returns a packet, it has exactly 18
elements and the post-call state has an empty buffer and a clear escape
flag; along any stream of byte-valued inputs fed to a fresh decoder, every
emitted packet consists of bytes that previously arrived on the stream. -/
theorem emitted_packet_invariant :
    (∀ (st : PacketProcessor) (data : List Nat) (st' : PacketProcessor)
        (p : List Nat), process_byte st data = (st', some p) →
        p.length = 18 ∧ st'.packet = [] ∧ st'.escape = false)
    ∧ ∀ s : List Nat, (∀ b ∈ s, b < 256) →
        ∀ p ∈ (processStream PacketProcessor.init s).2,
          p.length = 18 ∧ ∀ b ∈ p, b < 256 ∧ b ∈ s := by
  constructor
  · intro st data st' p h
    exact (process_byte_emit st data st' p h).2
  · intro s hs p hp
    refine ⟨processStream_emitted_length s _ p hp, fun b hb => ?_⟩
    have := (processStream_mem s PacketProcessor.init).2 p hp b hb
    simp [PacketProcessor.init] at this
    exact ⟨hs b this, this⟩

/-- Witness for C10: a frame-end on a full 18-byte buffer, and a complete
framed stream. -/
theorem emitted_packet_invariant_witness :
    ((List.replicate 18 (2 : Nat)).length = 18
      ∧ (⟨false, []⟩ : PacketProcessor).packet = []
      ∧ (⟨false, []⟩ : PacketProcessor).escape = false)
    ∧ ((List.replicate 18 (2 : Nat)).length = 18
      ∧ ∀ b ∈ List.replicate 18 (2 : Nat),
          b < 256 ∧ b ∈ 13 :: List.replicate 18 2 ++ [10]) :=
  ⟨emitted_packet_invariant.1 ⟨false, List.replicate 18 2⟩ [FRAME_END]
      ⟨false, []⟩ (List.replicate 18 2) (by decide),
   emitted_packet_invariant.2 (13 :: List.replicate 18 2 ++ [10]) (by decide)
      (List.replicate 18 2) (by decide)⟩

/-! ## Parser theorems -/

/-- The decoded battery voltage is a cast 16-bit value over 1000, hence
nonnegative. -/
theorem battery_voltage_of_nonneg (p : List Nat) : 0 ≤ battery_voltage_of p := by
  unfold battery_voltage_of
  positivity

/-- The decoded RTD resistance is a cast 16-bit value scaled by 400/2^15,
hence nonnegative. -/
theorem rtd_resistance_of_nonneg (p : List Nat) : 0 ≤ rtd_resistance_of p := by
  unfold rtd_resistance_of
  positivity

/-- `SensorData.is_valid` returns `true` exactly when the battery voltage
lies in [0, 10] and the raw packet has 18 bytes. -/
theorem is_valid_iff (d : SensorData) :
    d.is_valid = true
      ↔ 0 ≤ d.battery_voltage ∧ d.battery_voltage ≤ 10
        ∧ d.raw_packet.length = 18 := by
  unfold SensorData.is_valid
  split_ifs with h1 h2
  · simp only [false_iff]
    rintro ⟨hb1, hb2, _⟩
    rcases h1 with hc | hc
    · exact absurd hc (not_lt.2 hb1)
    · exact absurd hc (not_lt.2 hb2)
  · simp only [false_iff]
    rintro ⟨_, _, hlen⟩
    exact h2 hlen
  · push_neg at h1
    simp only [true_iff]
    exact ⟨h1.1, h1.2, not_not.1 h2⟩

/-- C6: an 18-byte packet parses successfully exactly when its decoded
battery voltage lies in the closed interval [0, 10]; a voltage outside the
interval makes the parse fail with the invalid-sensor-data error; on
success the stored voltage is the decoded value, never clamped. -/
theorem battery_validation_boundary (p : List Nat) (h : p.length = 18) :
    ((∃ sd, parse_packet p = .ok sd)
        ↔ 0 ≤ battery_voltage_of p ∧ battery_voltage_of p ≤ 10)
    ∧ (¬(0 ≤ battery_voltage_of p ∧ battery_voltage_of p ≤ 10) →
        parse_packet p = .error .invalidSensorData)
    ∧ ∀ sd, parse_packet p = .ok sd → sd.battery_voltage = battery_voltage_of p := by
  have hbat := battery_voltage_of_nonneg p
  have hvalid : (mkSensorData p).is_valid = true
      ↔ 0 ≤ battery_voltage_of p ∧ battery_voltage_of p ≤ 10 := by
    rw [is_valid_iff]
    unfold mkSensorData
    simp [h]
  simp only [parse_packet, h, ne_eq, not_true_eq_false, if_false,
    if_neg (not_lt.2 (rtd_resistance_of_nonneg p))]
  cases hvb : (mkSensorData p).is_valid with
  | false =>
    rw [if_pos rfl]
    refine ⟨⟨fun ⟨_, hsd⟩ => absurd hsd (by simp), fun hrange => ?_⟩,
      fun _ => rfl, fun sd hsd => absurd hsd (by simp)⟩
    rw [hvalid.2 hrange] at hvb
    exact Bool.noConfusion hvb
  | true =>
    rw [if_neg (by simp : ¬(true = false))]
    refine ⟨iff_of_true ⟨mkSensorData p, rfl⟩ (hvalid.1 hvb),
      fun hrange => absurd (hvalid.1 hvb) hrange, fun sd hsd => ?_⟩
    rw [← Except.ok.inj hsd]
    rfl

/-- Witness for C6 at the all-zero 18-byte packet (battery 0.0 V, valid)
and at a packet whose battery field reads 65.535 V (rejected with the
invalid-sensor-data error). -/
theorem battery_validation_boundary_witness :
    (((∃ sd, parse_packet (List.replicate 18 0) = .ok sd)
        ↔ 0 ≤ battery_voltage_of (List.replicate 18 0)
          ∧ battery_voltage_of (List.replicate 18 0) ≤ 10)
    ∧ (¬(0 ≤ battery_voltage_of (List.replicate 18 0)
          ∧ battery_voltage_of (List.replicate 18 0) ≤ 10) →
        parse_packet (List.replicate 18 0) = .error .invalidSensorData)
    ∧ ∀ sd, parse_packet (List.replicate 18 0) = .ok sd →
        sd.battery_voltage = battery_voltage_of (List.replicate 18 0))
    ∧ (((∃ sd, parse_packet [0, 0, 0, 0, 0, 0, 0, 0, 0, 0, 0, 0, 0, 0, 0, 255, 255, 0]
          = .ok sd)
        ↔ 0 ≤ battery_voltage_of [0, 0, 0, 0, 0, 0, 0, 0, 0, 0, 0, 0, 0, 0, 0, 255, 255, 0]
          ∧ battery_voltage_of [0, 0, 0, 0, 0, 0, 0, 0, 0, 0, 0, 0, 0, 0, 0, 255, 255, 0] ≤ 10)
    ∧ (¬(0 ≤ battery_voltage_of [0, 0, 0, 0, 0, 0, 0, 0, 0, 0, 0, 0, 0, 0, 0, 255, 255, 0]
          ∧ battery_voltage_of [0, 0, 0, 0, 0, 0, 0, 0, 0, 0, 0, 0, 0, 0, 0, 255, 255, 0] ≤ 10) →
        parse_packet [0, 0, 0, 0, 0, 0, 0, 0, 0, 0, 0, 0, 0, 0, 0, 255, 255, 0]
          = .error .invalidSensorData)
    ∧ ∀ sd, parse_packet [0, 0, 0, 0, 0, 0, 0, 0, 0, 0, 0, 0, 0, 0, 0, 255, 255, 0] = .ok sd →
        sd.battery_voltage
          = battery_voltage_of [0, 0, 0, 0, 0, 0, 0, 0, 0, 0, 0, 0, 0, 0, 0, 255, 255, 0]) :=
  ⟨battery_validation_boundary (List.replicate 18 0) (by decide),
   battery_validation_boundary [0, 0, 0, 0, 0, 0, 0, 0, 0, 0, 0, 0, 0, 0, 0, 255, 255, 0]
     (by decide)⟩

/-- C7: on packets of unsigned 8-bit values the decoded RTD resistance is
nonnegative, so the negative-resistance rejection branch of `parse_packet`
can never fire. -/
theorem rtd_negativity_check_dead (p : List Nat) (h : p.length = 18)
    (_hb : ∀ b ∈ p, b < 256) :
    0 ≤ rtd_resistance_of p ∧ parse_packet p ≠ .error .negativeResistance := by
  refine ⟨rtd_resistance_of_nonneg p, ?_⟩
  simp only [parse_packet, h, ne_eq, not_true_eq_false, if_false,
    if_neg (not_lt.2 (rtd_resistance_of_nonneg p))]
  split_ifs <;> simp

/-- Witness for C7 at a packet with maximal RTD field bytes. -/
theorem rtd_negativity_check_dead_witness :
    0 ≤ rtd_resistance_of [0, 0, 0, 0, 0, 0, 0, 0, 0, 0, 0, 255, 255, 0, 0, 0, 0, 0]
    ∧ parse_packet [0, 0, 0, 0, 0, 0, 0, 0, 0, 0, 0, 255, 255, 0, 0, 0, 0, 0]
        ≠ .error .negativeResistance :=
  rtd_negativity_check_dead [0, 0, 0, 0, 0, 0, 0, 0, 0, 0, 0, 255, 255, 0, 0, 0, 0, 0]
    (by decide) (by decide)

/-! ## Calibration theorems -/

/-- Spec-side characterization of the nearest-neighbor scan: `m` is the
lowest index minimizing `abs(table[i] - resistance)` — it beats every index
weakly and every earlier index strictly. -/
def IsFirstArgmin (t : List ℚ) (r : ℚ) (m : Nat) : Prop :=
  m < t.length
  ∧ (∀ j, j < t.length → pyabs (t.getD m 0 - r) ≤ pyabs (t.getD j 0 - r))
  ∧ ∀ j, j < m → pyabs (t.getD m 0 - r) < pyabs (t.getD j 0 - r)

/-- Loop invariant of the min-scan: starting from a suffix with a current
best index that weakly beats all earlier indices and strictly beats all
indices before it, the scan ends on the first argmin of the whole table. -/
theorem minIdxAux_spec (r : ℚ) (t : List ℚ) :
    ∀ (ts : List ℚ) (i best : Nat),
      ts = t.drop i → i ≤ t.length → best < i →
      (∀ j, j < i → pyabs (t.getD best 0 - r) ≤ pyabs (t.getD j 0 - r)) →
      (∀ j, j < best → pyabs (t.getD best 0 - r) < pyabs (t.getD j 0 - r)) →
      IsFirstArgmin t r (minIdxAux r ts i best (pyabs (t.getD best 0 - r))) := by
  intro ts
  induction ts with
  | nil =>
    intro i best hdrop hi hbi hle hlt
    have hlen : t.length ≤ i := List.drop_eq_nil_iff.1 hdrop.symm
    have hieq : i = t.length := le_antisymm hi hlen
    subst hieq
    exact ⟨hbi, hle, hlt⟩
  | cons a rest ih =>
    intro i best hdrop hi hbi hle hlt
    have hit : i < t.length := by
      by_contra hge
      rw [List.drop_eq_nil_iff.2 (le_of_not_lt hge)] at hdrop
      exact List.noConfusion hdrop
    rw [List.drop_eq_getElem_cons hit] at hdrop
    obtain ⟨ha, hrest⟩ := List.cons.inj hdrop
    have hgetD : t.getD i 0 = t[i] := List.getD_eq_getElem t 0 hit
    have ha' : pyabs (a - r) = pyabs (t.getD i 0 - r) := by rw [ha, hgetD]
    simp only [minIdxAux]
    split_ifs with hcmp
    · rw [ha']
      have hcmp' : pyabs (t.getD i 0 - r) < pyabs (t.getD best 0 - r) :=
        ha' ▸ hcmp
      refine ih (i + 1) i hrest hit (Nat.lt_succ_self i) ?_ ?_
      · intro j hj
        rcases Nat.lt_succ_iff_lt_or_eq.1 hj with hj' | hj'
        · exact le_of_lt (lt_of_lt_of_le hcmp' (hle j hj'))
        · subst hj'
          exact le_refl _
      · intro j hj
        exact lt_of_lt_of_le hcmp' (hle j hj)
    · refine ih (i + 1) best hrest hit (Nat.lt_succ_of_lt hbi) ?_ hlt
      intro j hj
      rcases Nat.lt_succ_iff_lt_or_eq.1 hj with hj' | hj'
      · exact hle j hj'
      · subst hj'
        exact ha' ▸ not_lt.1 hcmp

/-- The scan of a nonempty table computes the first argmin. -/
theorem argminIdx_spec (r : ℚ) (t : List ℚ) (h : t ≠ []) :
    IsFirstArgmin t r (argminIdx r t) := by
  match t with
  | [] => exact absurd rfl h
  | a :: rest =>
    show IsFirstArgmin (a :: rest) r (minIdxAux r rest 1 0 (pyabs (a - r)))
    have hkey : pyabs (a - r) = pyabs ((a :: rest).getD 0 0 - r) := rfl
    rw [hkey]
    refine minIdxAux_spec r (a :: rest) rest 1 0 rfl ?_ Nat.one_pos ?_ ?_
    · exact Nat.succ_le_succ (Nat.zero_le rest.length)
    · intro j hj
      rcases Nat.lt_one_iff.1 hj with rfl
      exact le_refl _
    · intro j hj
      exact absurd hj (Nat.not_lt_zero j)

/-- The calibration table has 1083 entries. -/
theorem rtd_values_length : rtd_values.length = 1083 := by rfl

/-- The calibration table is not empty. -/
theorem rtd_values_ne_nil : rtd_values ≠ [] :=
  List.length_pos.1 (by rw [rtd_values_length]; norm_num)

/-- For any nonnegative resistance the lookup succeeds and returns the
first nearest-neighbor index minus 200. -/
theorem calibration_lookup_spec (r : ℚ) (hr : 0 ≤ r) :
    ∃ i : Nat, get_temperature_from_resistance r = .ok ((i : Int) - 200)
      ∧ IsFirstArgmin rtd_values r i := by
  refine ⟨argminIdx r rtd_values, ?_,
    argminIdx_spec r rtd_values rtd_values_ne_nil⟩
  unfold get_temperature_from_resistance
  rw [if_neg (not_lt.2 hr), if_neg rtd_values_ne_nil]

/-- C8: the calibration lookup returns −200 at the table's first entry
18.4932 Ω, the highest calibrated temperature (maximum index − 200) at the
last entry 390.2623 Ω, rejects a negative resistance, and in general
returns the first index minimizing `abs(table[i] - r)`, minus 200. -/
theorem calibration_lookup_values :
    get_temperature_from_resistance (184932 / 10000) = .ok (-200)
    ∧ get_temperature_from_resistance (3902623 / 10000)
        = .ok ((rtd_values.length : Int) - 1 - 200)
    ∧ get_temperature_from_resistance (-1) = .error .negativeInput
    ∧ ∀ r : ℚ, 0 ≤ r →
        ∃ i : Nat, get_temperature_from_resistance r = .ok ((i : Int) - 200)
          ∧ IsFirstArgmin rtd_values r i :=
  ⟨by decide, by decide, by decide, calibration_lookup_spec⟩

/-- Witness for C8's universally quantified part at resistance 1 Ω. -/
theorem calibration_lookup_values_witness :
    ∃ i : Nat, get_temperature_from_resistance 1 = .ok ((i : Int) - 200)
      ∧ IsFirstArgmin rtd_values 1 i :=
  calibration_lookup_values.2.2.2 1 zero_le_one

/-! ## End-to-end pipeline -/

/-- C1: feeding a fresh decoder 0x0D, the 18 data bytes (temperature field
E8 03 00 00, RTD field 64 00, battery field FC 0E, no control-code values),
then 0x0A yields exactly the one 18-byte packet, and parsing it succeeds
with temperature 0.1 °C, RTD resistance 100·400/32768 Ω, battery 3.836 V,
and a valid reading. -/
theorem end_to_end_pipeline :
    processStream PacketProcessor.init
        (13 :: ([0, 232, 3, 0, 0, 0, 0, 1, 2, 3, 4, 100, 0, 0, 0, 252, 14, 0] ++ [10]))
      = (⟨false, []⟩, [[0, 232, 3, 0, 0, 0, 0, 1, 2, 3, 4, 100, 0, 0, 0, 252, 14, 0]])
    ∧ ∃ sd,
        parse_packet [0, 232, 3, 0, 0, 0, 0, 1, 2, 3, 4, 100, 0, 0, 0, 252, 14, 0]
          = .ok sd
        ∧ sd.temperature = 1 / 10
        ∧ sd.rtd_resistance = 100 * 400 / 32768
        ∧ sd.battery_voltage = 3836 / 1000
        ∧ sd.is_valid = true :=
  ⟨by decide,
   mkSensorData [0, 232, 3, 0, 0, 0, 0, 1, 2, 3, 4, 100, 0, 0, 0, 252, 14, 0],
   by decide, by decide, by decide, by decide, by decide⟩

end WirelessSensor
